import Mathlib

/-!
Shallow embedding of the assistant lifecycle and mount-coordination core of
the ComfyUI-Prompt-Assistant extension (src/js/modules/PromptAssistant.js),
together with the small parts of its collaborating services that the
verified properties need.  JavaScript `Map`s are embedded as association
lists with set-on-write semantics, DOM elements as numeric handles carrying
the flags the code stores on them, and the asynchronous positioning callback
as an explicit step function applied after instance creation.
-/

set_option maxHeartbeats 1000000

/-- Association-list lookup, mirroring JavaScript `Map.get` /
`Object` property read (first binding wins; maps built with `mapSet`
never hold duplicate keys). -/
def mapGet {α β : Type} [DecidableEq α] : List (α × β) → α → Option β
  | [], _ => none
  | (k, v) :: rest, key => if k = key then some v else mapGet rest key

/-- Association-list insert-or-overwrite, mirroring `Map.set`. -/
def mapSet {α β : Type} [DecidableEq α] : List (α × β) → α → β → List (α × β)
  | [], key, v => [(key, v)]
  | (k, w) :: rest, key, v =>
      if k = key then (key, v) :: rest else (k, w) :: mapSet rest key v

/-- Association-list removal, mirroring `Map.delete` / `delete obj[k]`. -/
def mapDel {α β : Type} [DecidableEq α] : List (α × β) → α → List (α × β)
  | [], _ => []
  | (k, v) :: rest, key =>
      if k = key then mapDel rest key else (k, v) :: mapDel rest key

/-- Membership test, mirroring `Map.has`. -/
def mapHas {α β : Type} [DecidableEq α] (m : List (α × β)) (key : α) : Bool :=
  (mapGet m key).isSome

theorem mapGet_del {α β : Type} [DecidableEq α] (m : List (α × β)) (k key : α) :
    mapGet (mapDel m key) k = if k = key then none else mapGet m k := by
  induction m with
  | nil => simp [mapDel, mapGet]
  | cons hd tl ih =>
    rcases hd with ⟨a, b⟩
    simp only [mapDel]
    by_cases hak : a = key
    · rw [if_pos hak, ih]
      by_cases hk : k = key
      · simp [hk]
      · have hka : ¬ (a = k) := by
          rw [hak]; exact fun h => hk h.symm
        simp [mapGet, hk, hka]
    · rw [if_neg hak]
      by_cases hka : a = k
      · have hk : ¬ (k = key) := by
          rw [← hka]; exact hak
        simp [mapGet, hka, hk]
      · simp [mapGet, hka, ih]

theorem mapGet_eq_none_del {α β : Type} [DecidableEq α]
    (m : List (α × β)) (key : α) (h : mapGet m key = none) :
    mapDel m key = m := by
  induction m with
  | nil => rfl
  | cons hd tl ih =>
    rcases hd with ⟨a, b⟩
    by_cases hak : a = key
    · subst hak; simp [mapGet] at h
    · simp only [mapGet, if_neg hak] at h
      simp [mapDel, hak, ih h]

/-- JavaScript string-valued `a || b` where the empty string is falsy. -/
def jsOrStr (a : Option String) (b : String) : String :=
  match a with
  | some s => if s = "" then b else s
  | none => b

/-- JavaScript `a || b` over two nullable strings, empty string falsy. -/
def jsOrStrO (a b : Option String) : Option String :=
  match a with
  | some s => if s = "" then b else some s
  | none => b

/-- JavaScript `a || b` over nullable object references (element handles):
null is the only falsy value. -/
def jsOrRef (a b : Option Nat) : Option Nat :=
  match a with
  | some e => some e
  | none => b

/-- JavaScript `String.prototype.trim`: strip whitespace from both ends
(structurally recursive so that concrete inputs evaluate). -/
def jsTrim (s : String) : String :=
  ⟨((s.data.dropWhile Char.isWhitespace).reverse.dropWhile
      Char.isWhitespace).reverse⟩

/-- Graph object as read by key derivation: `graph.id` (Locator ID) and
`graph._workflow_id`, both of which may be absent. -/
structure Graph where
  locatorId : Option String
  workflowId : Option String
deriving Repr, DecidableEq

/-- Host node as read by the scan: its stable id (JavaScript renders it into
key strings, so it is embedded as a string), its owning graph (`node.graph`,
which may be null), and whether it is one of the markdown note types. -/
structure Node where
  id : String
  graph : Option Graph
  isNoteNode : Bool
deriving Repr, DecidableEq

/-- Text-bearing widget object of a node, as consumed by the scan: `name`,
`id`, `inputEl` and `element` (element handles; `none` embeds null). -/
structure InputWidget where
  name : Option String
  id : Option String
  inputEl : Option Nat
  element : Option Nat
deriving Repr, DecidableEq

/-- Flags and data the code stores directly on a DOM element, plus the
observable facts about it that the code queries: attachment to
`document.body`, containment in the node's Vue container, the textarea
value, the number of live listeners attached by this extension, and whether
the container already holds an assistant root
(`querySelector('.assistant-container-common')`). -/
structure ElemState where
  inDocument : Bool
  inNodeContainer : Bool
  value : String
  promptAssistantMounted : Bool
  promptAssistantWidgetKey : Option String
  promptAssistantBound : Bool
  uniqueId : Option String
  listeners : Nat
  hasAssistantChild : Bool
deriving Repr, DecidableEq

/-- Default element: detached, unmarked, empty. -/
def ElemState.fresh : ElemState :=
  { inDocument := false, inNodeContainer := false, value := ""
    promptAssistantMounted := false, promptAssistantWidgetKey := none
    promptAssistantBound := false, uniqueId := none, listeners := 0
    hasAssistantChild := false }

instance : Inhabited ElemState := ⟨ElemState.fresh⟩

/-- Assistant instance object (the `widget` built by `createAssistant`),
restricted to the fields the lifecycle logic reads and writes. -/
structure Widget where
  widgetKey : String
  nodeId : String
  inputId : String
  inputEl : Option Nat
  textElement : Option Nat
  uiElement : Option Nat
  isMounting : Bool
  isDestroyed : Bool
  inputEventsBound : Bool
  undoStateInitialized : Bool
  cleanups : Nat
deriving Repr, DecidableEq

/-- History record as written by `HistoryCacheService.addHistory`
(timestamps are irrelevant to the verified properties and elided). -/
structure HistoryEntry where
  workflowId : String
  nodeId : String
  inputId : String
  content : String
  operationType : String
deriving Repr, DecidableEq

/-- Tag-cache record, scoped by node and input. -/
structure TagEntry where
  nodeId : String
  inputId : String
  tag : String
deriving Repr, DecidableEq

/-- Global state threaded through the lifecycle functions: the feature
switch, the workflow-switching flag, the instance registry
(`PromptAssistant.instances`), the global input map
(`window.PromptAssistantInputWidgetMap`, holding the `inputEl` handle of
each entry), the DOM elements, a fresh-handle counter for elements the
extension creates, the persisted history and tag caches, the keys whose
`AssistantContainer` has been destroyed, and the keys with a positioning
request in flight. -/
structure CoreState where
  featuresEnabled : Bool
  workflowSwitching : Bool
  instances : List (String × Widget)
  inputWidgetMap : List (String × Option Nat)
  elems : List (Nat × ElemState)
  nextElemId : Nat
  history : List HistoryEntry
  tagCache : List TagEntry
  destroyedContainers : List String
  pendingMounts : List String
deriving Repr, DecidableEq

/-- Element-state read with the `ElemState.fresh` default (reading a flag
that was never written yields undefined, which is falsy). -/
def getElem0 (s : CoreState) (e : Nat) : ElemState :=
  (mapGet s.elems e).getD ElemState.fresh

/-- Element-state update. -/
def setElem (s : CoreState) (e : Nat) (f : ElemState → ElemState) : CoreState :=
  { s with elems := mapSet s.elems e (f (getElem0 s e)) }

/-- Environment facts the scan consults but does not own: `app.graph`,
`LiteGraph.vueNodesMode`, whether `document.querySelector` finds the node's
Vue container, the `UIToolkit.isValidInput` verdict (that helper lives
outside the coordination core), and the random id `setupNodeAssistant`
would generate for a nameless widget. -/
structure ScanEnv where
  appGraph : Option Graph
  vueMode : Bool
  nodeContainerExists : Bool
  isValidInput : InputWidget → Bool
  freshRandomId : String

/-- Key derivation `_getAssistantKey` (PromptAssistant.js:307-313):
`graphId = (node.graph || app.graph)?.id || ...?._workflow_id || 'main'`,
then `graphId + '_' + node.id + '_' + inputId`; null node yields null. -/
def getAssistantKey (appGraph : Option Graph) (node : Option Node)
    (inputId : String) : Option String :=
  match node with
  | none => none
  | some n =>
    let graph : Option Graph :=
      match n.graph with
      | some g => some g
      | none => appGraph
    let graphId :=
      jsOrStr (jsOrStrO (graph.bind Graph.locatorId)
                        (graph.bind Graph.workflowId)) "main"
    some (graphId ++ "_" ++ n.id ++ "_" ++ inputId)

/-- Resolved input id of a widget: `inputWidget.name || inputWidget.id`
(empty strings are falsy). -/
def widgetInputId (w : InputWidget) : Option String :=
  jsOrStrO w.name w.id

/-- JavaScript string interpolation of a possibly-undefined value. -/
def showOptStr : Option String → String
  | some s => s
  | none => "undefined"

/-- Runtime errors the embedded scan can raise. -/
inductive JsError where
  | referenceError (ident : String)
deriving Repr, DecidableEq

/-- Per-input assistant-key resolution of `checkAndSetupNode`
(PromptAssistant.js:767-788).  The base key comes from `_getAssistantKey`.
When several valid inputs share the resolved input id, the code tries to
build a per-element identifier and store it in
`inputEl.dataset.promptAssistantUniqueId` — but the template literal it
builds references `graphId`, an identifier that is not in scope in
`checkAndSetupNode` (it is local to `_getAssistantKey`), so in that branch
the module throws a ReferenceError; only when the dataset value already
exists (truthy) is it read back.  The index fallback for a missing element
references `graphId` as well. -/
def resolveScanKey (env : ScanEnv) (s : CoreState) (node : Node)
    (validInputs : List InputWidget) (inputWidget : InputWidget) :
    Except JsError String :=
  let inputId := widgetInputId inputWidget
  let assistantKey :=
    (getAssistantKey env.appGraph (some node) (showOptStr inputId)).getD ""
  let sameNameWidgets :=
    validInputs.filter (fun w => widgetInputId w = inputId)
  if 1 < sameNameWidgets.length then
    match jsOrRef inputWidget.inputEl inputWidget.element with
    | some e =>
      match (getElem0 s e).uniqueId with
      | some uid =>
        if uid = "" then Except.error (JsError.referenceError "graphId")
        else Except.ok uid
      | none => Except.error (JsError.referenceError "graphId")
    | none => Except.error (JsError.referenceError "graphId")
  else
    Except.ok assistantKey

/-- State-changing effects of `_cleanupInstance`
(PromptAssistant.js:2965-3109): run the registered cleanup callbacks
(detaching the listeners this instance attached to its input element),
reset the element-level bound flag on `inputEl` and `text_element`, reset
the mount marker (on `text_element` only when it differs from `inputEl`),
remove the assistant root element from the DOM, delete the global
input-map entry, and, unless `skipRemove`, delete the registry entry.
The `isDestroyed` mark and the property deletion of step 8 act on the
instance object itself, which every caller also drops from the registry,
so they have no further observable effect on this state. -/
def cleanupInstance (s : CoreState) (inst : Widget) (instKey : String)
    (skipRemove : Bool) : CoreState :=
  let s1 := match inst.inputEl with
    | some e => setElem s e
        (fun es => { es with listeners := es.listeners - inst.cleanups })
    | none => s
  let s2 := match inst.inputEl with
    | some e => setElem s1 e
        (fun es => { es with promptAssistantBound := false })
    | none => s1
  let s3 := match inst.textElement with
    | some e => setElem s2 e
        (fun es => { es with promptAssistantBound := false })
    | none => s2
  let s4 := match inst.inputEl with
    | some e => setElem s3 e
        (fun es => { es with promptAssistantMounted := false,
                             promptAssistantWidgetKey := none })
    | none => s3
  let s5 := match inst.textElement with
    | some e =>
      if inst.textElement ≠ inst.inputEl then
        setElem s4 e
          (fun es => { es with promptAssistantMounted := false,
                               promptAssistantWidgetKey := none })
      else s4
    | none => s4
  let s6 := match inst.uiElement with
    | some ui => setElem s5 ui
        (fun es => { es with inDocument := false, inNodeContainer := false })
    | none => s5
  let s7 := { s6 with inputWidgetMap := mapDel s6.inputWidgetMap instKey }
  if skipRemove then s7
  else { s7 with instances := mapDel s7.instances instKey }

/-- Key filter of the workflow-switching branch of `cleanup`
(PromptAssistant.js:493-494): match everything for a global cleanup,
otherwise keys starting with the node id and an underscore. -/
def cleanupWSMatch (nodeId : Option String) (key : String) : Bool :=
  match nodeId with
  | none => true
  | some nid => key.startsWith (nid ++ "_")

/-- Key filter of the per-node branch of `cleanup`
(PromptAssistant.js:517-526): exact key match, legacy `nodeId_` prefix,
or a `graphId_nodeId_inputId` key whose second underscore-separated part
is the node id. -/
def cleanupNodeMatch (nid : String) (key : String) : Bool :=
  (key == nid) || key.startsWith (nid ++ "_") ||
    (let parts := key.splitOn "_"
     decide (2 ≤ parts.length) && (parts.getD 1 "" == nid))

/-- Per-key body of the workflow-switching cleanup loop
(PromptAssistant.js:496-501): look the instance up and tear it down with
`skipRemove = false` (which removes its registry entry). -/
def cleanupWSStep (s : CoreState) (key : String) : CoreState :=
  match mapGet s.instances key with
  | some inst => cleanupInstance s inst key false
  | none => s

/-- Per-key body of the tag-clearing loop of the per-node cleanup branch
(PromptAssistant.js:541-549): when the key still has an instance with a
truthy `inputId`, drop that `(node, input)` scope from the tag cache
(`TagCacheService.clearCache`, modelled from the spec as removal of the
node- and input-scoped entries from the persisted tag store). -/
def cleanupTagStep (nid : String) (s : CoreState) (key : String) : CoreState :=
  match mapGet s.instances key with
  | some inst =>
    if inst.inputId = "" then s
    else { s with tagCache :=
      s.tagCache.filter (fun t => ¬(t.nodeId = nid ∧ t.inputId = inst.inputId)) }
  | none => s

/-- Per-key body of the instance-removal loop of the per-node cleanup
branch (PromptAssistant.js:552-558): `_cleanupInstance(..., true)` followed
by an explicit registry delete. -/
def cleanupNodeStep (s : CoreState) (key : String) : CoreState :=
  match mapGet s.instances key with
  | some inst =>
    let s1 := cleanupInstance s inst key true
    { s1 with instances := mapDel s1.instances key }
  | none => s

/-- Teardown entry point `cleanup(nodeId, silent)`
(PromptAssistant.js:486-616).  While the global workflow-switching flag is
set, only matching toolbar instances are torn down (no cache clearing).
Otherwise the per-node branch clears the node's history
(`HistoryCacheService.clearNodeHistory`, modelled from the spec as removal
of that node's persisted entries), clears the tag scopes of the matching
instances, and tears the instances down; the global branch clears all
history and tags and tears everything down.  The summary log lines are
emitted only when `silent` is false; the returned strings stand for the
log calls. -/
def cleanup (s : CoreState) (nodeId : Option String) (silent : Bool) :
    CoreState × List String :=
  if s.workflowSwitching then
    let keysToDelete := (s.instances.map Prod.fst).filter (cleanupWSMatch nodeId)
    let s1 := keysToDelete.foldl cleanupWSStep s
    let s2 := if nodeId.isNone then { s1 with instances := [] } else s1
    (s2, [])
  else
    match nodeId with
    | some nid =>
      let keysToDelete :=
        (s.instances.map Prod.fst).filter (cleanupNodeMatch nid)
      if keysToDelete.isEmpty then (s, [])
      else
        let s1 := { s with history := s.history.filter (fun h => h.nodeId ≠ nid) }
        let s2 := keysToDelete.foldl (cleanupTagStep nid) s1
        let s3 := keysToDelete.foldl cleanupNodeStep s2
        (s3, if silent then [] else ["node-cleanup-summary " ++ nid])
    | none =>
      if s.instances.isEmpty then (s, [])
      else
        let s1 := { s with history := [], tagCache := [] }
        let s2 := s1.instances.foldl
          (fun acc kv => cleanupInstance acc kv.2 kv.1 true) s1
        let s3 := { s2 with instances := [] }
        (s3, if silent then [] else ["global-cleanup-summary", "remaining-stats"])

/-- UI-presence probe of the scan (PromptAssistant.js:799-801): in Vue mode
`nodeContainer?.contains(el)`, otherwise `document.body.contains(el)`; a
null element is never contained. -/
def uiPresent (env : ScanEnv) (s : CoreState) (el : Option Nat) : Bool :=
  match el with
  | none => false
  | some e =>
    if env.vueMode then env.nodeContainerExists && (getElem0 s e).inNodeContainer
    else (getElem0 s e).inDocument

/-- Document attachment of a nullable element (`document.body.contains`). -/
def elemInDoc (s : CoreState) (el : Option Nat) : Bool :=
  match el with
  | none => false
  | some e => (getElem0 s e).inDocument

/-- Binding pass `_initializeInputElBindings`
(PromptAssistant.js:1156-1248).  The undo state is seeded once per widget
(`HistoryCacheService.addHistoryAndUpdateUndoState`, modelled from the spec
as appending the initial text to the persisted history, runs only for a
non-blank initial value).  The rebinding guard is the widget-level flag
`_inputEventsBound`; when binding proceeds, the element-level
`_promptAssistantBound` flag is set and three cleanups are registered
(blur listener, input listener, resize observer). -/
def initInputElBindings (s : CoreState) (w : Widget) (inputWidget : InputWidget)
    (node : Node) (inputId : String) : CoreState × Widget :=
  match jsOrRef inputWidget.inputEl w.inputEl with
  | none => (s, w)
  | some e =>
    let p :=
      if ¬ w.undoStateInitialized then
        (if (jsTrim (getElem0 s e).value ≠ "") then
           ({ s with history := s.history ++
                [{ workflowId := "", nodeId := node.id, inputId := inputId,
                   content := (getElem0 s e).value, operationType := "input" }] },
            { w with undoStateInitialized := true })
         else (s, { w with undoStateInitialized := true }))
      else (s, w)
    let s1 := p.1
    let w1 := p.2
    if w1.inputEventsBound then (s1, w1)
    else
      let s2 := setElem s1 e
        (fun es => { es with promptAssistantBound := true,
                             listeners := es.listeners + 3 })
      (s2, { w1 with inputEventsBound := true, cleanups := w1.cleanups + 3 })

/-- UI construction `createAssistantUI` (PromptAssistant.js:1255-1373),
restricted to its coordination effects: a fresh detached root element is
allocated for the `AssistantContainer`, stored on the widget, and an
asynchronous positioning request (`_setupUIPosition`, which retries with
`findMountContainerWithRetry`) is started for the widget's key; the
positioning outcome is delivered later by `onPositionComplete`. -/
def createAssistantUI (s : CoreState) (w : Widget) : CoreState × Widget :=
  let containerEl := s.nextElemId
  let s1 := { s with nextElemId := s.nextElemId + 1,
                     elems := mapSet s.elems containerEl ElemState.fresh }
  let w1 := { w with uiElement := some containerEl }
  let s2 := { s1 with pendingMounts := s1.pendingMounts ++ [w1.widgetKey] }
  (s2, w1)

/-- Instance construction `createAssistant` (PromptAssistant.js:1032-1150):
guard on the feature switch, input id, input validity
(`UIToolkit.isValidInput`, supplied by the environment) and, outside Vue
mode, on a present input element; derive the key (explicit argument or
`_getAssistantKey`); return the existing instance untouched when the key is
already registered; otherwise build the widget with `_isMounting = true`,
publish it in the global input map, build its UI, register it, and run the
input bindings.  The registry holds the same mutable object the bindings
update, so the binding result is written back to the registry entry. -/
def createAssistant (env : ScanEnv) (s : CoreState) (node : Node)
    (inputId : String) (inputWidget : InputWidget)
    (assistantKey : Option String) : CoreState × Option Widget :=
  if ¬ s.featuresEnabled ∨ inputId = "" then (s, none)
  else if ¬ env.isValidInput inputWidget then (s, none)
  else
    let inputEl := jsOrRef inputWidget.inputEl inputWidget.element
    if inputEl.isNone ∧ ¬ env.vueMode then (s, none)
    else
      let widgetKey := jsOrStr assistantKey
        ((getAssistantKey env.appGraph (some node) inputId).getD "")
      match mapGet s.instances widgetKey with
      | some existing => (s, some existing)
      | none =>
        let w : Widget :=
          { widgetKey := widgetKey, nodeId := node.id, inputId := inputId,
            inputEl := inputEl, textElement := inputEl, uiElement := none,
            isMounting := true, isDestroyed := false,
            inputEventsBound := false, undoStateInitialized := false,
            cleanups := 0 }
        let s1 := { s with inputWidgetMap := mapSet s.inputWidgetMap widgetKey inputEl }
        let p1 := createAssistantUI s1 w
        let s2 := { p1.1 with instances := mapSet p1.1.instances widgetKey p1.2 }
        let p2 :=
          if inputEl.isSome then initInputElBindings s2 p1.2 inputWidget node inputId
          else (s2, p1.2)
        let s3 := { p2.1 with instances := mapSet p2.1.instances widgetKey p2.2 }
        (s3, some p2.2)

/-- Wrapper `setupNodeAssistant` (PromptAssistant.js:960-1026): resolve the
input id (falling back to a random id for nameless widgets) and, for note
nodes, prefer `element` over `inputEl` before delegating to
`createAssistant`. -/
def setupNodeAssistant (env : ScanEnv) (s : CoreState) (node : Node)
    (inputWidget : InputWidget) (assistantKey : Option String) :
    CoreState × Option Widget :=
  let inputId := jsOrStr (widgetInputId inputWidget) env.freshRandomId
  let processedWidget :=
    if node.isNoteNode then
      { inputWidget with inputEl := jsOrRef inputWidget.element inputWidget.inputEl }
    else inputWidget
  createAssistant env s node inputId processedWidget assistantKey

/-- Creation tail of the per-input scan (PromptAssistant.js:828-844): after
the existing-instance checks fall through, re-check the feature switch,
skip quietly when the target element already carries a mount marker
(`inputEl._promptAssistantMounted`), and otherwise build the assistant via
`setupNodeAssistant`. -/
def proceedScanCreate (env : ScanEnv) (s : CoreState) (node : Node)
    (inputWidget : InputWidget) (assistantKey : String) : CoreState :=
  if ¬ s.featuresEnabled then s
  else
    match jsOrRef inputWidget.inputEl inputWidget.element with
    | some e =>
      if (getElem0 s e).promptAssistantMounted then s
      else (setupNodeAssistant env s node inputWidget (some assistantKey)).1
    | none => (setupNodeAssistant env s node inputWidget (some assistantKey)).1

/-- Existing-instance arbitration of the per-input scan
(PromptAssistant.js:790-844), for one valid input whose assistant key has
already been resolved: a registered instance is rebuilt only when its UI
root is missing, or detached while not mid-mount, or when its input element
reference went stale and left the document; a mid-mount instance with a
detached UI is skipped; an intact instance is left untouched. -/
def checkAndSetupInput (env : ScanEnv) (s : CoreState) (node : Node)
    (inputWidget : InputWidget) (assistantKey : String) : CoreState :=
  match mapGet s.instances assistantKey with
  | some inst =>
    let currentInputEl := inputWidget.inputEl
    let instanceInputEl := inst.textElement
    let instanceUIEl := inst.uiElement
    let isUIPresent := uiPresent env s instanceUIEl
    if instanceUIEl.isNone ∨ (¬ isUIPresent ∧ ¬ inst.isMounting) then
      let s1 := (cleanup s (some assistantKey) false).1
      proceedScanCreate env s1 node inputWidget assistantKey
    else if ¬ isUIPresent ∧ inst.isMounting then s
    else if instanceInputEl.isSome ∧ currentInputEl.isSome ∧
              instanceInputEl ≠ currentInputEl then
      if ¬ elemInDoc s instanceInputEl then
        let s1 := (cleanup s (some node.id) false).1
        proceedScanCreate env s1 node inputWidget assistantKey
      else s
    else s
  | none => proceedScanCreate env s node inputWidget assistantKey

/-- Container discovered by `findMountContainerWithRetry` for the
litegraph render mode: the dom-widget container element and the textarea
found inside it (which may be absent). -/
structure ContainerInfo where
  container : Nat
  textarea : Option Nat
deriving Repr, DecidableEq

/-- Input-element reference refresh at the head of
`_applyLitegraphPositioning` (PromptAssistant.js:2835-2845): adopt the
discovered textarea as the widget's input element and update the global
input-map entry when it exists. -/
def alpRefresh (s : CoreState) (w : Widget) (ci : ContainerInfo) :
    CoreState × Widget :=
  match ci.textarea with
  | some t =>
    if w.inputEl ≠ some t then
      (if (mapGet s.inputWidgetMap w.widgetKey).isSome then
         { s with inputWidgetMap := mapSet s.inputWidgetMap w.widgetKey (some t) }
       else s,
       { w with inputEl := some t, textElement := some t })
    else (s, w)
  | none => (s, w)

/-- Fallback event binding of `_applyLitegraphPositioning`
(PromptAssistant.js:2848-2904): guarded by the widget-level
`_inputEventsBound` flag; when it fires it sets the element-level bound
flag, attaches the blur and input listeners (two cleanups) and seeds the
undo baseline once per widget. -/
def alpBind (s : CoreState) (w : Widget) (inputEl : Option Nat) :
    CoreState × Widget :=
  match inputEl with
  | some e =>
    if ¬ w.inputEventsBound then
      (setElem s e
         (fun es => { es with promptAssistantBound := true,
                              listeners := es.listeners + 2 }),
       { w with inputEventsBound := true, cleanups := w.cleanups + 2,
                undoStateInitialized := true })
    else (s, w)
  | none => (s, w)

/-- Mount guard and marker stamping of `_applyLitegraphPositioning`
(PromptAssistant.js:2906-2960): abort quietly — deleting the candidate's
registry entry and destroying its container — when the input element
already carries a mount marker or the container already holds an assistant
root; otherwise stamp the marker with this widget's key and append the
assistant root into the container. -/
def alpMount (s : CoreState) (w : Widget) (inputEl : Option Nat)
    (containerDiv : Nat) (ci : ContainerInfo) : CoreState × Widget :=
  let mountedGuard :=
    match inputEl with
    | some e => (getElem0 s e).promptAssistantMounted
    | none => false
  if mountedGuard then
    let s2 :=
      if w.widgetKey ≠ "" ∧ mapHas s.instances w.widgetKey then
        { s with instances := mapDel s.instances w.widgetKey }
      else s
    ({ s2 with destroyedContainers := s2.destroyedContainers ++ [w.widgetKey] }, w)
  else if (getElem0 s ci.container).hasAssistantChild then
    let s2 :=
      if w.widgetKey ≠ "" ∧ mapHas s.instances w.widgetKey then
        { s with instances := mapDel s.instances w.widgetKey }
      else s
    ({ s2 with destroyedContainers := s2.destroyedContainers ++ [w.widgetKey] }, w)
  else
    let s2 :=
      match inputEl with
      | some e => setElem s e
          (fun es => { es with promptAssistantMounted := true,
                               promptAssistantWidgetKey := some w.widgetKey })
      | none => s
    let s3 := setElem s2 containerDiv
      (fun es => { es with inDocument := (getElem0 s2 ci.container).inDocument })
    let s4 := setElem s3 ci.container
      (fun es => { es with hasAssistantChild := true })
    (s4, w)

/-- Litegraph-mode mount `_applyLitegraphPositioning`
(PromptAssistant.js:2831-2960): refresh the input-element reference, run
the fallback binding (`widget.inputEl || textarea` is the bind target),
then arbitrate the mount. -/
def applyLitegraphPositioning (s : CoreState) (w : Widget)
    (containerDiv : Nat) (ci : ContainerInfo) : CoreState × Widget :=
  let p0 := alpRefresh s w ci
  let inputEl := jsOrRef p0.2.inputEl ci.textarea
  let p1 := alpBind p0.1 p0.2 inputEl
  alpMount p1.1 p1.2 inputEl containerDiv ci

/-- Positioning-outcome callback registered by `createAssistantUI`
(PromptAssistant.js:1341-1365): a destroyed widget is ignored; on failure
(container not found within the retry budget) the candidate's container is
destroyed and its registry and global-input-map entries are deleted; on
success the container dimensions are refreshed and the mounting mark on
the (registry-aliased) widget object is cleared. -/
def onPositionComplete (s : CoreState) (w : Widget) (success : Bool) :
    CoreState :=
  if w.isDestroyed then s
  else if ¬ success then
    let s1 := { s with destroyedContainers := s.destroyedContainers ++ [w.widgetKey] }
    let s2 :=
      if w.widgetKey ≠ "" ∧ mapHas s1.instances w.widgetKey then
        { s1 with instances := mapDel s1.instances w.widgetKey }
      else s1
    if w.widgetKey ≠ "" then
      { s2 with inputWidgetMap := mapDel s2.inputWidgetMap w.widgetKey }
    else s2
  else
    match mapGet s.instances w.widgetKey with
    | some cur =>
      { s with instances := mapSet s.instances w.widgetKey { cur with isMounting := false } }
    | none => s

/-- Record of the bidirectional translate cache: a source text and the
translation produced for it. -/
structure CacheRecord where
  source : String
  translated : String
deriving Repr, DecidableEq

/-- Result shape of a translate-cache query: the text matched a stored
source (carrying its translation) or a stored translation (carrying its
source). -/
inductive CacheHit where
  | source (translatedText : String)
  | translated (sourceText : String)
deriving Repr, DecidableEq

/-- Modelled from the spec: `TranslateCacheService.queryTranslateCache`
lives in `services/cache.js`, which is not part of the provided sources.
Per the spec's ContentCache contract it is a content-addressed
bidirectional lookup keyed by exact text match: an exact match on a stored
source text returns its translation (type `source`), otherwise an exact
match on a stored translated text returns its source (type `translated`). -/
def queryTranslateCache (cache : List CacheRecord) (text : String) :
    Option CacheHit :=
  match cache.find? (fun r => r.source == text) with
  | some r => some (CacheHit.source r.translated)
  | none =>
    match cache.find? (fun r => r.translated == text) with
    | some r => some (CacheHit.translated r.source)
    | none => none

/-- Observable steps of a translate/expand button operation, in the order
the handler performs them: status tips, the cancellation handshake, the
backend configuration fetch, the provider (translation/LLM) call, silent
streaming updates of the bound input (`setInputValue` with
`silent: true`), the final input update (`updateInputWithHighlight`),
history writes (`HistoryCacheService.addHistory`), undo-state resets, and
translate-cache writes (`TranslateCacheService.addTranslateCache`). -/
inductive TransEvent where
  | statusTip (kind msg : String)
  | cancelReady (requestId : String)
  | configFetch
  | providerCall (provider : String)
  | inputUpdateSilent (text : String)
  | inputUpdateFinal (text : String)
  | historyAdd (content operation : String)
  | initUndo (content : String)
  | cacheWrite (source translated : String)
deriving Repr, DecidableEq

/-- Streaming callback trace (PromptAssistant.js:1826-1831 and 2252-2257):
each chunk is appended to the accumulated content and the bound input is
updated silently with the accumulated text. -/
def streamEvents : List String → String → List TransEvent
  | [], _ => []
  | c :: cs, acc =>
      TransEvent.inputUpdateSilent (acc ++ c) :: streamEvents cs (acc ++ c)

/-- Feature flags read by the operation handlers. -/
structure TransFlags where
  useTranslateCache : Bool
  cacheMixedLangTranslation : Bool
  enableStreaming : Bool
deriving Repr, DecidableEq

/-- Active translate backend reported by `/config/translate`. -/
inductive TranslateProviderConfig where
  | google
  | baidu
  | llm
deriving Repr, DecidableEq

/-- Provider response: success flag, the streamed chunks (delivered only on
the streaming LLM path), the response payload (`result.data.translated` /
`result.data.expanded`), and the error text of a failed response. -/
structure ProviderOutcome where
  success : Bool
  chunks : List String
  payload : String
  errMsg : String
deriving Repr, DecidableEq

/-- Translate-button work function (PromptAssistant.js:2095-2336),
for standard text inputs (`isMarkdownLiteGraph` false; the markdown Note
branch only reshapes the text through `MarkdownNoteTranslate`, outside the
provided sources, around the same cache/provider/history logic).  Empty
input throws.  The cache is queried only when `FEATURES.useTranslateCache`
is on; a hit applies the cached counterpart (translation for a source
match, original source for a translated match) and returns without any
network traffic or cache write.  On a miss the handler arms cancellation,
fetches the translate configuration, calls the configured provider
(streaming the LLM response into silent input updates when streaming is
enabled), and on success records the formatted result in history, applies
it to the input, and writes the cache only when allowed by the
mixed-language policy (`PromptFormatter.isMixedChineseEnglish`, outside the
provided sources, enters as the `isMixed` input; the formatter enters as
`fmt`).  A failed response throws without history or cache writes. -/
def translateWork (flags : TransFlags) (cache : List CacheRecord)
    (cfg : TranslateProviderConfig) (outcome : ProviderOutcome)
    (isMixed : Bool) (fmt : String → String)
    (inputValue requestId : String) :
    Except String (Bool × String) × List TransEvent :=
  if jsTrim inputValue = "" then (Except.error "input-required", [])
  else
    let ev0 := [TransEvent.statusTip "loading" "translating"]
    let cacheResult :=
      if flags.useTranslateCache then queryTranslateCache cache inputValue
      else none
    match cacheResult with
    | some hit =>
      let rawResultText :=
        match hit with
        | CacheHit.source t => t
        | CacheHit.translated src => src
      (Except.ok (true, rawResultText),
       ev0 ++ [TransEvent.inputUpdateFinal rawResultText,
               TransEvent.historyAdd rawResultText "translate",
               TransEvent.initUndo rawResultText])
    | none =>
      let ev1 := ev0 ++ [TransEvent.cancelReady requestId, TransEvent.configFetch]
      let callEvents :=
        match cfg with
        | TranslateProviderConfig.google => [TransEvent.providerCall "google"]
        | TranslateProviderConfig.baidu => [TransEvent.providerCall "baidu"]
        | TranslateProviderConfig.llm =>
          if flags.enableStreaming then
            TransEvent.providerCall "llmTranslateStream"
              :: streamEvents outcome.chunks ""
          else [TransEvent.providerCall "llmTranslate"]
      let streamContent :=
        match cfg with
        | TranslateProviderConfig.llm =>
          if flags.enableStreaming then String.join outcome.chunks else ""
        | _ => ""
      if outcome.success then
        let rawTranslated :=
          if streamContent = "" then outcome.payload else streamContent
        let formattedText := fmt rawTranslated
        let writeEvents :=
          if flags.useTranslateCache then
            if ¬ isMixed ∨ flags.cacheMixedLangTranslation then
              [TransEvent.cacheWrite inputValue formattedText]
            else []
          else []
        (Except.ok (false, formattedText),
         ev1 ++ callEvents ++
           [TransEvent.historyAdd formattedText "translate",
            TransEvent.inputUpdateFinal formattedText,
            TransEvent.initUndo formattedText] ++ writeEvents)
      else (Except.error outcome.errMsg, ev1 ++ callEvents)

/-- Expand-button work function (PromptAssistant.js:1780-1886): empty
input throws; the LLM is called (streaming chunks into silent input
updates when streaming is enabled); success with non-empty final content
applies the content with highlight, records it in history once, and resets
the undo state; otherwise the handler throws without touching history. -/
def expandWork (flags : TransFlags) (outcome : ProviderOutcome)
    (inputValue requestId : String) :
    Except String String × List TransEvent :=
  if jsTrim inputValue = "" then (Except.error "input-required", [])
  else
    let ev1 := [TransEvent.cancelReady requestId]
    let callEvents :=
      if flags.enableStreaming then
        TransEvent.statusTip "loading" "expanding"
          :: TransEvent.providerCall "llmExpandPromptStream"
          :: streamEvents outcome.chunks ""
      else [TransEvent.statusTip "loading" "expanding",
            TransEvent.providerCall "llmExpandPrompt"]
    let streamContent :=
      if flags.enableStreaming then String.join outcome.chunks else ""
    let finalContent :=
      if streamContent = "" then outcome.payload else streamContent
    if outcome.success ∧ finalContent ≠ "" then
      (Except.ok finalContent,
       ev1 ++ callEvents ++
         [TransEvent.inputUpdateFinal finalContent,
          TransEvent.historyAdd finalContent "expand",
          TransEvent.initUndo finalContent])
    else
      (Except.error (jsOrStr (some outcome.errMsg) "expand-failed"),
       ev1 ++ callEvents)

/-- Contents written to the history store within a trace. -/
def historyContents (tr : List TransEvent) : List String :=
  tr.filterMap (fun e =>
    match e with
    | TransEvent.historyAdd c _ => some c
    | _ => none)

/-- Texts applied to the input by non-silent final updates. -/
def finalUpdates (tr : List TransEvent) : List String :=
  tr.filterMap (fun e =>
    match e with
    | TransEvent.inputUpdateFinal t => some t
    | _ => none)

/-- Texts applied to the input by silent streaming updates. -/
def silentUpdates (tr : List TransEvent) : List String :=
  tr.filterMap (fun e =>
    match e with
    | TransEvent.inputUpdateSilent t => some t
    | _ => none)

/-- Provider calls issued within a trace. -/
def providerCalls (tr : List TransEvent) : List String :=
  tr.filterMap (fun e =>
    match e with
    | TransEvent.providerCall p => some p
    | _ => none)

/-- Translate-cache writes performed within a trace. -/
def cacheWrites (tr : List TransEvent) : List (String × String) :=
  tr.filterMap (fun e =>
    match e with
    | TransEvent.cacheWrite src tgt => some (src, tgt)
    | _ => none)

theorem streamEvents_shape (cs : List String) (acc : String) :
    ∀ e ∈ streamEvents cs acc, ∃ t, e = TransEvent.inputUpdateSilent t := by
  induction cs generalizing acc with
  | nil => simp [streamEvents]
  | cons c cs ih =>
    intro e he
    simp only [streamEvents, List.mem_cons] at he
    rcases he with h | h
    · exact ⟨_, h⟩
    · exact ih _ e h

theorem historyContents_streamEvents (cs : List String) (acc : String) :
    historyContents (streamEvents cs acc) = [] := by
  induction cs generalizing acc with
  | nil => simp [streamEvents, historyContents]
  | cons c cs ih => simp [streamEvents, historyContents, List.filterMap_cons] at ih ⊢; exact ih _

theorem finalUpdates_streamEvents (cs : List String) (acc : String) :
    finalUpdates (streamEvents cs acc) = [] := by
  induction cs generalizing acc with
  | nil => simp [streamEvents, finalUpdates]
  | cons c cs ih => simp [streamEvents, finalUpdates, List.filterMap_cons] at ih ⊢; exact ih _

theorem cacheWrites_streamEvents (cs : List String) (acc : String) :
    cacheWrites (streamEvents cs acc) = [] := by
  induction cs generalizing acc with
  | nil => simp [streamEvents, cacheWrites]
  | cons c cs ih => simp [streamEvents, cacheWrites, List.filterMap_cons] at ih ⊢; exact ih _

theorem providerCalls_streamEvents (cs : List String) (acc : String) :
    providerCalls (streamEvents cs acc) = [] := by
  induction cs generalizing acc with
  | nil => simp [streamEvents, providerCalls]
  | cons c cs ih => simp [streamEvents, providerCalls, List.filterMap_cons] at ih ⊢; exact ih _

/-- History writes a successful operation should leave: exactly the final
text of the result; a failed operation leaves none. -/
def traceHistorySpecTrans (r : Except String (Bool × String)) : List String :=
  match r with
  | Except.ok p => [p.2]
  | Except.error _ => []

/-- Expand-side analogue of `traceHistorySpecTrans`. -/
def traceHistorySpecExpand (r : Except String String) : List String :=
  match r with
  | Except.ok t => [t]
  | Except.error _ => []

/-- C6: during a streaming translate or expand operation no partial chunk
is written to the history store: streaming chunk callbacks emit only
silent input updates, and the history receives exactly one entry, carrying
the final applied text, exactly when the operation succeeds (and none on
failure).  Formally, the history writes of each operation trace coincide
with its non-silent final input updates and equal the one-element list of
the result text on success and the empty list on failure. -/
theorem translate_expand_history_discipline
    (flags : TransFlags) (cache : List CacheRecord)
    (cfg : TranslateProviderConfig) (outcome : ProviderOutcome)
    (isMixed : Bool) (fmt : String → String) (inputValue requestId : String) :
    historyContents
        (translateWork flags cache cfg outcome isMixed fmt inputValue requestId).2
      = traceHistorySpecTrans
        (translateWork flags cache cfg outcome isMixed fmt inputValue requestId).1 ∧
    finalUpdates
        (translateWork flags cache cfg outcome isMixed fmt inputValue requestId).2
      = traceHistorySpecTrans
        (translateWork flags cache cfg outcome isMixed fmt inputValue requestId).1 ∧
    historyContents (expandWork flags outcome inputValue requestId).2
      = traceHistorySpecExpand (expandWork flags outcome inputValue requestId).1 ∧
    finalUpdates (expandWork flags outcome inputValue requestId).2
      = traceHistorySpecExpand (expandWork flags outcome inputValue requestId).1 := by
  refine ⟨?_, ?_, ?_, ?_⟩ <;>
    · first
        | unfold translateWork
        | unfold expandWork
      cases cfg <;> by_cases hstr : flags.enableStreaming <;>
        repeat' split <;>
          (try simp_all [historyContents, finalUpdates, traceHistorySpecTrans,
            traceHistorySpecExpand, List.filterMap_append, List.filterMap_cons,
            historyContents_streamEvents, finalUpdates_streamEvents]) <;>
          (try (intro a ha
                obtain ⟨t, rfl⟩ := streamEvents_shape _ _ a ha
                rfl))

/-- Text the cache-hit branch applies: the stored translation for a
source-text match, the stored source for a translated-text match
(PromptAssistant.js:2156-2165). -/
def cacheCounterpart : CacheHit → String
  | CacheHit.source t => t
  | CacheHit.translated src => src

theorem mem_cacheWrites (tr : List TransEvent) (src tgt : String) :
    (src, tgt) ∈ cacheWrites tr ↔ TransEvent.cacheWrite src tgt ∈ tr := by
  unfold cacheWrites
  rw [List.mem_filterMap]
  constructor
  · rintro ⟨a, ha, hm⟩
    cases a <;> simp at hm
    obtain ⟨rfl, rfl⟩ := hm
    exact ha
  · intro h
    exact ⟨_, h, rfl⟩

/-- C7: translate-cache writes happen only for a genuine provider-served
result.  On a cache hit the handler returns the cached counterpart and
performs no cache write; any cache write in a translate trace stems from a
successful provider response, stores the current input as source, carries
the text the operation returned as a non-cache-served result, and obeys
the mixed-language policy. -/
theorem translate_cache_write_policy
    (flags : TransFlags) (cache : List CacheRecord)
    (cfg : TranslateProviderConfig) (outcome : ProviderOutcome)
    (isMixed : Bool) (fmt : String → String) (inputValue requestId : String) :
    (∀ hit, flags.useTranslateCache = true →
        queryTranslateCache cache inputValue = some hit →
        jsTrim inputValue ≠ "" →
        cacheWrites
            (translateWork flags cache cfg outcome isMixed fmt inputValue requestId).2
          = [] ∧
        (translateWork flags cache cfg outcome isMixed fmt inputValue requestId).1
          = Except.ok (true, cacheCounterpart hit)) ∧
    (∀ src tgt,
        (src, tgt) ∈ cacheWrites
            (translateWork flags cache cfg outcome isMixed fmt inputValue requestId).2 →
        outcome.success = true ∧ src = inputValue ∧
        (translateWork flags cache cfg outcome isMixed fmt inputValue requestId).1
          = Except.ok (false, tgt) ∧
        (isMixed = false ∨ flags.cacheMixedLangTranslation = true)) := by
  constructor
  · intro hit huse hq htrim
    unfold translateWork
    rw [if_neg htrim]
    simp only [huse, if_true, hq]
    cases hit <;>
      simp [cacheWrites, cacheCounterpart, List.filterMap_append, List.filterMap_cons]
  · intro src tgt hmem
    rw [mem_cacheWrites] at hmem
    have hstream : ∀ (cs : List String) (acc : String),
        TransEvent.cacheWrite src tgt ∉ streamEvents cs acc := by
      intro cs acc hmem2
      obtain ⟨t, ht⟩ := streamEvents_shape cs acc _ hmem2
      simp at ht
    unfold translateWork at hmem ⊢
    by_cases htrim : jsTrim inputValue = ""
    · rw [if_pos htrim] at hmem
      simp at hmem
    · rw [if_neg htrim] at hmem ⊢
      cases hq : (if flags.useTranslateCache = true
          then queryTranslateCache cache inputValue else none) with
      | some hit =>
        simp only [hq] at hmem
        simp at hmem
      | none =>
        simp only [hq] at hmem ⊢
        cases hs : outcome.success with
        | false =>
          simp only [hs] at hmem
          cases cfg <;> by_cases hstr2 : flags.enableStreaming <;>
            simp [hstr2, hstream] at hmem
        | true =>
          simp only [hs] at hmem ⊢
          cases cfg <;> by_cases hstr2 : flags.enableStreaming <;>
            by_cases hu : flags.useTranslateCache <;>
            by_cases hpol : (isMixed = false ∨ flags.cacheMixedLangTranslation = true) <;>
              simp_all [hstream]

/-- Witness for `translate_cache_write_policy`: a concrete cache hit and a
concrete provider-served write. -/
theorem translate_cache_write_policy_witness :
    (queryTranslateCache [⟨"hola", "Hello"⟩] "hola"
        = some (CacheHit.source "Hello")) ∧
    (cacheWrites (translateWork
        ⟨true, false, false⟩ [⟨"hola", "Hello"⟩] TranslateProviderConfig.llm
        ⟨true, [], "x", ""⟩ false id "hola" "r1").2 = [] ∧
      (translateWork ⟨true, false, false⟩ [⟨"hola", "Hello"⟩]
        TranslateProviderConfig.llm ⟨true, [], "x", ""⟩ false id "hola" "r1").1
        = Except.ok (true, cacheCounterpart (CacheHit.source "Hello"))) ∧
    (("salut", "Hi") ∈ cacheWrites (translateWork
        ⟨true, false, false⟩ [] TranslateProviderConfig.llm
        ⟨true, [], "Hi", ""⟩ false id "salut" "r2").2 →
      (⟨true, [], "Hi", ""⟩ : ProviderOutcome).success = true ∧
        ("salut" : String) = "salut" ∧
        (translateWork ⟨true, false, false⟩ [] TranslateProviderConfig.llm
          ⟨true, [], "Hi", ""⟩ false id "salut" "r2").1
          = Except.ok (false, "Hi") ∧
        (false = false ∨ (⟨true, false, false⟩ : TransFlags).cacheMixedLangTranslation = true)) := by
  refine ⟨by decide, ?_, ?_⟩
  · exact (translate_cache_write_policy ⟨true, false, false⟩ [⟨"hola", "Hello"⟩]
      TranslateProviderConfig.llm ⟨true, [], "x", ""⟩ false id "hola" "r1").1
      (CacheHit.source "Hello") (by decide) (by decide) (by decide)
  · intro hmem
    exact (translate_cache_write_policy ⟨true, false, false⟩ []
      TranslateProviderConfig.llm ⟨true, [], "Hi", ""⟩ false id "salut" "r2").2
      "salut" "Hi" hmem

/-- Counterexample to C8 as stated: with the translate-cache policy
disabled, the handler issues a provider call even though the current input
text exactly matches a cached source text, so the cache is not consulted
"before any provider call" unconditionally. -/
theorem translate_cache_bypass_counterexample :
    queryTranslateCache [⟨"ni hao", "Hello"⟩] "ni hao"
        = some (CacheHit.source "Hello") ∧
    providerCalls (translateWork
        ⟨false, false, false⟩ [⟨"ni hao", "Hello"⟩] TranslateProviderConfig.llm
        ⟨true, [], "Hello", ""⟩ false id "ni hao" "r0").2
      = ["llmTranslate"] := by
  constructor <;> rfl

/-- C8 (amended): provided the translate-cache policy
(`FEATURES.useTranslateCache`) is enabled, the translate handler consults
the bidirectional cache before any provider call: on an exact match of the
input against a cached source text the cached translation is applied with
no provider call and no configuration fetch; on an exact match against
previously produced translated text the original source text is applied
instead, giving toggle-like translate-back behaviour. -/
theorem translate_cache_hit_short_circuit
    (flags : TransFlags) (cache : List CacheRecord)
    (cfg : TranslateProviderConfig) (outcome : ProviderOutcome)
    (isMixed : Bool) (fmt : String → String) (inputValue requestId : String)
    (huse : flags.useTranslateCache = true)
    (htrim : jsTrim inputValue ≠ "") :
    ∀ hit, queryTranslateCache cache inputValue = some hit →
      providerCalls
          (translateWork flags cache cfg outcome isMixed fmt inputValue requestId).2
        = [] ∧
      TransEvent.configFetch ∉
        (translateWork flags cache cfg outcome isMixed fmt inputValue requestId).2 ∧
      (translateWork flags cache cfg outcome isMixed fmt inputValue requestId).1
        = Except.ok (true, cacheCounterpart hit) ∧
      finalUpdates
          (translateWork flags cache cfg outcome isMixed fmt inputValue requestId).2
        = [cacheCounterpart hit] := by
  intro hit hq
  unfold translateWork
  rw [if_neg htrim]
  simp only [huse, if_true, hq]
  cases hit <;>
    simp [providerCalls, finalUpdates, cacheCounterpart,
      List.filterMap_append, List.filterMap_cons]

/-- Witness for `translate_cache_hit_short_circuit`, covering both the
forward (source-match) and the reverse (translated-match, translate-back)
directions at concrete inputs. -/
theorem translate_cache_hit_short_circuit_witness :
    (providerCalls (translateWork
        ⟨true, false, true⟩ [⟨"ni hao", "Hello"⟩] TranslateProviderConfig.llm
        ⟨true, [], "x", ""⟩ false id "ni hao" "r3").2 = [] ∧
      TransEvent.configFetch ∉ (translateWork
        ⟨true, false, true⟩ [⟨"ni hao", "Hello"⟩] TranslateProviderConfig.llm
        ⟨true, [], "x", ""⟩ false id "ni hao" "r3").2 ∧
      (translateWork ⟨true, false, true⟩ [⟨"ni hao", "Hello"⟩]
        TranslateProviderConfig.llm ⟨true, [], "x", ""⟩ false id "ni hao" "r3").1
        = Except.ok (true, cacheCounterpart (CacheHit.source "Hello")) ∧
      finalUpdates (translateWork
        ⟨true, false, true⟩ [⟨"ni hao", "Hello"⟩] TranslateProviderConfig.llm
        ⟨true, [], "x", ""⟩ false id "ni hao" "r3").2
        = [cacheCounterpart (CacheHit.source "Hello")]) ∧
    (providerCalls (translateWork
        ⟨true, false, true⟩ [⟨"ni hao", "Hello"⟩] TranslateProviderConfig.llm
        ⟨true, [], "x", ""⟩ false id "Hello" "r4").2 = [] ∧
      TransEvent.configFetch ∉ (translateWork
        ⟨true, false, true⟩ [⟨"ni hao", "Hello"⟩] TranslateProviderConfig.llm
        ⟨true, [], "x", ""⟩ false id "Hello" "r4").2 ∧
      (translateWork ⟨true, false, true⟩ [⟨"ni hao", "Hello"⟩]
        TranslateProviderConfig.llm ⟨true, [], "x", ""⟩ false id "Hello" "r4").1
        = Except.ok (true, cacheCounterpart (CacheHit.translated "ni hao")) ∧
      finalUpdates (translateWork
        ⟨true, false, true⟩ [⟨"ni hao", "Hello"⟩] TranslateProviderConfig.llm
        ⟨true, [], "x", ""⟩ false id "Hello" "r4").2
        = [cacheCounterpart (CacheHit.translated "ni hao")]) := by
  constructor
  · exact translate_cache_hit_short_circuit ⟨true, false, true⟩
      [⟨"ni hao", "Hello"⟩] TranslateProviderConfig.llm ⟨true, [], "x", ""⟩
      false id "ni hao" "r3" (by decide) (by decide)
      (CacheHit.source "Hello") (by decide)
  · exact translate_cache_hit_short_circuit ⟨true, false, true⟩
      [⟨"ni hao", "Hello"⟩] TranslateProviderConfig.llm ⟨true, [], "x", ""⟩
      false id "Hello" "r4" (by decide) (by decide)
      (CacheHit.translated "ni hao") (by decide)

/-- C9: `cleanup(nodeId, silent)` performs the same state changes for both
values of `silent` — the flag suppresses only the summary log lines. -/
theorem cleanup_silent_only_suppresses_logs (s : CoreState)
    (nodeId : Option String) :
    (cleanup s nodeId true).1 = (cleanup s nodeId false).1 ∧
    (cleanup s nodeId true).2 = [] := by
  constructor <;>
    · unfold cleanup
      dsimp only
      repeat' split
      all_goals first | rfl | simp_all

theorem cleanupInstance_history (s : CoreState) (inst : Widget)
    (instKey : String) (skip : Bool) :
    (cleanupInstance s inst instKey skip).history = s.history := by
  unfold cleanupInstance setElem
  dsimp only
  repeat' split
  all_goals first | rfl | simp_all

theorem cleanupInstance_tagCache (s : CoreState) (inst : Widget)
    (instKey : String) (skip : Bool) :
    (cleanupInstance s inst instKey skip).tagCache = s.tagCache := by
  unfold cleanupInstance setElem
  dsimp only
  repeat' split
  all_goals first | rfl | simp_all

theorem cleanupInstance_instances_del (s : CoreState) (inst : Widget)
    (instKey : String) :
    (cleanupInstance s inst instKey false).instances
      = mapDel s.instances instKey := by
  unfold cleanupInstance setElem
  dsimp only
  repeat' split
  all_goals first | rfl | simp_all

theorem cleanupWSStep_char (acc : CoreState) (k : String) :
    (cleanupWSStep acc k).history = acc.history ∧
    (cleanupWSStep acc k).tagCache = acc.tagCache ∧
    (cleanupWSStep acc k).instances = mapDel acc.instances k := by
  unfold cleanupWSStep
  cases hg : mapGet acc.instances k with
  | none => exact ⟨rfl, rfl, (mapGet_eq_none_del _ _ hg).symm⟩
  | some inst =>
    exact ⟨cleanupInstance_history acc inst k false,
           cleanupInstance_tagCache acc inst k false,
           cleanupInstance_instances_del acc inst k⟩

theorem foldl_cleanupWSStep (ks : List String) (acc : CoreState) :
    (ks.foldl cleanupWSStep acc).history = acc.history ∧
    (ks.foldl cleanupWSStep acc).tagCache = acc.tagCache ∧
    (ks.foldl cleanupWSStep acc).instances
      = ks.foldl (fun m k => mapDel m k) acc.instances := by
  induction ks generalizing acc with
  | nil => exact ⟨rfl, rfl, rfl⟩
  | cons k ks ih =>
    obtain ⟨h1, h2, h3⟩ := ih (cleanupWSStep acc k)
    obtain ⟨g1, g2, g3⟩ := cleanupWSStep_char acc k
    refine ⟨?_, ?_, ?_⟩ <;> simp [List.foldl_cons, h1, h2, h3, g1, g2, g3]

theorem mapDel_eq_filter {β : Type} (m : List (String × β)) (key : String) :
    mapDel m key = m.filter (fun kv => !(kv.1 == key)) := by
  induction m with
  | nil => rfl
  | cons hd tl ih =>
    rcases hd with ⟨a, b⟩
    by_cases hak : a = key <;> simp [mapDel, List.filter_cons, hak, ih]

theorem foldl_mapDel_eq_filter {β : Type} (ks : List String)
    (m : List (String × β)) :
    ks.foldl (fun acc k => mapDel acc k) m
      = m.filter (fun kv => !(ks.contains kv.1)) := by
  induction ks generalizing m with
  | nil => simp
  | cons k ks ih =>
    rw [List.foldl_cons, ih, mapDel_eq_filter, List.filter_filter]
    refine List.filter_congr ?_
    intro kv _
    by_cases hk : kv.1 = k
    · simp [hk]
    · have hk2 : ¬ (k = kv.1) := fun h => hk h.symm
      simp [List.contains_cons, Bool.not_or, Bool.and_comm, hk, hk2]

/-- C10: while the global workflow-switching flag is set, every `cleanup`
call — for a specific node or for all instances — removes exactly the
matching toolbar instances from the registry (tearing their UI down via
`cleanupInstance`) and leaves all persisted history entries and tag-cache
entries unchanged: no history or tag-cache clearing operation runs on that
path. -/
theorem cleanup_workflow_switching_frame (s : CoreState)
    (nodeId : Option String) (silent : Bool)
    (hws : s.workflowSwitching = true) :
    ((cleanup s nodeId silent).1).history = s.history ∧
    ((cleanup s nodeId silent).1).tagCache = s.tagCache ∧
    ((cleanup s nodeId silent).1).instances
      = s.instances.filter (fun kv => !(cleanupWSMatch nodeId kv.1)) := by
  unfold cleanup
  simp only [hws, if_true]
  obtain ⟨h1, h2, h3⟩ :=
    foldl_cleanupWSStep ((s.instances.map Prod.fst).filter (cleanupWSMatch nodeId)) s
  have hfil :
      ((s.instances.map Prod.fst).filter (cleanupWSMatch nodeId)).foldl
          (fun m k => mapDel m k) s.instances
        = s.instances.filter (fun kv => !(cleanupWSMatch nodeId kv.1)) := by
    rw [foldl_mapDel_eq_filter]
    refine List.filter_congr ?_
    intro kv hkv
    have hmem : kv.1 ∈ s.instances.map Prod.fst :=
      List.mem_map_of_mem Prod.fst hkv
    by_cases hp : cleanupWSMatch nodeId kv.1
    · simp [List.elem_iff, List.mem_filter, hp, hmem]
    · simp [List.elem_iff, List.mem_filter, hp]
  cases nodeId with
  | none =>
    refine ⟨by simpa using h1, by simpa using h2, ?_⟩
    have hall : s.instances.filter (fun kv => !(cleanupWSMatch none kv.1)) = [] := by
      have hf : ∀ kv : String × Widget, (!(cleanupWSMatch none kv.1)) = false := by
        intro kv; simp [cleanupWSMatch]
      simp [List.filter_congr fun kv _ => hf kv]
    simp [hall]
  | some nid =>
    refine ⟨by simpa using h1, by simpa using h2, ?_⟩
    simpa using hfil ▸ h3

theorem mapGet_set {α β : Type} [DecidableEq α] (m : List (α × β)) (k : α)
    (v : β) : mapGet (mapSet m k v) k = some v := by
  induction m with
  | nil => simp [mapSet, mapGet]
  | cons hd tl ih =>
    rcases hd with ⟨a, b⟩
    by_cases hak : a = k <;> simp [mapSet, mapGet, hak, ih]

theorem mapGet_set_ne {α β : Type} [DecidableEq α] (m : List (α × β))
    (k k2 : α) (v : β) (h : k2 ≠ k) :
    mapGet (mapSet m k v) k2 = mapGet m k2 := by
  have h2 : ¬ (k = k2) := fun hh => h hh.symm
  induction m with
  | nil => simp [mapSet, mapGet, h2]
  | cons hd tl ih =>
    rcases hd with ⟨a, b⟩
    by_cases hak : a = k
    · subst hak
      simp [mapSet, mapGet, h2]
    · simp [mapSet, mapGet, hak, ih]

theorem getElem0_setElem_self (s : CoreState) (e : Nat)
    (f : ElemState → ElemState) :
    getElem0 (setElem s e f) e = f (getElem0 s e) := by
  unfold getElem0 setElem
  simp [mapGet_set, getElem0]

theorem getElem0_setElem_ne (s : CoreState) (e e2 : Nat)
    (f : ElemState → ElemState) (h : e2 ≠ e) :
    getElem0 (setElem s e f) e2 = getElem0 s e2 := by
  unfold getElem0 setElem
  simp [mapGet_set_ne _ _ _ _ h]

theorem getElem0_setElem_listeners (s : CoreState) (e e2 : Nat)
    (f : ElemState → ElemState)
    (hf : ∀ es, (f es).listeners = es.listeners) :
    (getElem0 (setElem s e f) e2).listeners = (getElem0 s e2).listeners := by
  by_cases he : e2 = e
  · subst he; rw [getElem0_setElem_self]; exact hf _
  · rw [getElem0_setElem_ne _ _ _ _ he]

/-- Environment fixture: litegraph mode, every widget accepted as a valid
input, no graph ids so keys fall back to the `main` prefix. -/
def envFix : ScanEnv :=
  { appGraph := none, vueMode := false, nodeContainerExists := false,
    isValidInput := fun _ => true, freshRandomId := "rnd" }

/-- Node fixture with id 9 and no graph reference. -/
def nodeFix : Node := { id := "9", graph := none, isNoteNode := false }

/-- Two valid input widgets that share the name `text`, with their own
input elements (handles 1 and 2), as produced by a node carrying duplicate
same-named inputs. -/
def iwDupA : InputWidget :=
  { name := some "text", id := none, inputEl := some 1, element := none }

/-- Second duplicate-named input widget (element handle 2). -/
def iwDupB : InputWidget :=
  { name := some "text", id := none, inputEl := some 2, element := none }

/-- Single valid input widget named `text` (element handle 1). -/
def iwSingle : InputWidget :=
  { name := some "text", id := none, inputEl := some 1, element := none }

/-- State fixture: fresh attached input elements 1 and 2 with no stored
per-element identifier, empty registry. -/
def sFix : CoreState :=
  { featuresEnabled := true, workflowSwitching := false, instances := [],
    inputWidgetMap := [],
    elems := [(1, { ElemState.fresh with inDocument := true }),
              (2, { ElemState.fresh with inDocument := true })],
    nextElemId := 100, history := [], tagCache := [],
    destroyedContainers := [], pendingMounts := [] }

/-- C3 (code bug): for a node with a single valid input the scan key is the
stable `_getAssistantKey` value, but for a node with two same-named valid
inputs whose elements carry no previously stored identifier, the
disambiguation branch of `checkAndSetupNode` evaluates a template literal
referencing `graphId` — an identifier not in scope there — and therefore
throws a ReferenceError instead of generating and storing the per-element
identifier the specification describes. -/
theorem duplicate_input_key_reference_error :
    resolveScanKey envFix sFix nodeFix [iwSingle] iwSingle
      = Except.ok "main_9_text" ∧
    resolveScanKey envFix sFix nodeFix [iwDupA, iwDupB] iwDupA
      = Except.error (JsError.referenceError "graphId") ∧
    resolveScanKey envFix sFix nodeFix [iwDupA, iwDupB] iwDupB
      = Except.error (JsError.referenceError "graphId") := by
  refine ⟨rfl, rfl, rfl⟩

/-- Empty-registry state fixture whose element 1 is an attached textarea. -/
def sEmptyFix : CoreState :=
  { featuresEnabled := true, workflowSwitching := false, instances := [],
    inputWidgetMap := [],
    elems := [(1, { ElemState.fresh with inDocument := true })],
    nextElemId := 100, history := [], tagCache := [],
    destroyedContainers := [], pendingMounts := [] }

/-- Fallback widget value for reading an optional creation result. -/
def widgetFallback : Widget :=
  { widgetKey := "", nodeId := "", inputId := "", inputEl := none,
    textElement := none, uiElement := none, isMounting := false,
    isDestroyed := false, inputEventsBound := false,
    undoStateInitialized := false, cleanups := 0 }

/-- Counterexample to C4 as stated: a candidate whose mount subsequently
fails is nevertheless registered — `createAssistant` adds the instance to
the registry right after building its UI, before the asynchronous
positioning retries can resolve, so an entry for its key does appear in
the instance registry while the mount is pending (it is removed again by
the failure callback). -/
theorem mount_failure_transient_registration_counterexample :
    (createAssistant envFix sEmptyFix nodeFix "text" iwSingle none).2.isSome
      = true ∧
    mapHas (createAssistant envFix sEmptyFix nodeFix "text" iwSingle none).1.instances
        "main_9_text" = true ∧
    mapHas (onPositionComplete
        (createAssistant envFix sEmptyFix nodeFix "text" iwSingle none).1
        ((createAssistant envFix sEmptyFix nodeFix "text" iwSingle none).2.getD widgetFallback)
        false).instances "main_9_text" = false := by
  refine ⟨rfl, rfl, rfl⟩

/-- C4 (amended): when the positioning callback reports failure (retries
exhausted), the candidate is discarded — its container is destroyed and its
registry and global-input-map entries are removed, so no entry for its key
remains after the failed mount; the DOM elements are untouched (no mount
marker was stamped), leaving the node eligible for re-attempt on the next
host scan.  The key is, however, transiently registered between creation
and the callback. -/
theorem mount_failure_discards_candidate (s : CoreState) (w : Widget)
    (hnd : w.isDestroyed = false) (hk : w.widgetKey ≠ "") :
    mapGet (onPositionComplete s w false).instances w.widgetKey = none ∧
    mapGet (onPositionComplete s w false).inputWidgetMap w.widgetKey = none ∧
    w.widgetKey ∈ (onPositionComplete s w false).destroyedContainers ∧
    (onPositionComplete s w false).elems = s.elems := by
  unfold onPositionComplete
  rw [if_neg (by simp [hnd]), if_pos (by decide)]
  dsimp only
  by_cases hh : mapHas s.instances w.widgetKey
  · rw [if_pos hk, if_pos ⟨hk, hh⟩]
    refine ⟨?_, ?_, ?_, rfl⟩
    · simp [mapGet_del]
    · simp [mapGet_del]
    · simp
  · rw [if_pos hk, if_neg (by simp [hh])]
    have hnone : mapGet s.instances w.widgetKey = none := by
      unfold mapHas at hh
      cases hmg : mapGet s.instances w.widgetKey with
      | none => rfl
      | some v => rw [hmg] at hh; simp at hh
    refine ⟨hnone, ?_, ?_, rfl⟩
    · simp [mapGet_del]
    · simp

/-- Witness for `mount_failure_discards_candidate` at the concrete
candidate produced by `createAssistant` on the empty fixture state. -/
theorem mount_failure_discards_candidate_witness :
    mapGet (onPositionComplete
        (createAssistant envFix sEmptyFix nodeFix "text" iwSingle none).1
        ((createAssistant envFix sEmptyFix nodeFix "text" iwSingle none).2.getD widgetFallback)
        false).instances "main_9_text" = none ∧
    mapGet (onPositionComplete
        (createAssistant envFix sEmptyFix nodeFix "text" iwSingle none).1
        ((createAssistant envFix sEmptyFix nodeFix "text" iwSingle none).2.getD widgetFallback)
        false).inputWidgetMap "main_9_text" = none := by
  have h := mount_failure_discards_candidate
    (createAssistant envFix sEmptyFix nodeFix "text" iwSingle none).1
    ((createAssistant envFix sEmptyFix nodeFix "text" iwSingle none).2.getD widgetFallback)
    (by rfl) (by decide)
  exact ⟨h.1, h.2.1⟩

theorem mapGet_eq_none_of_not_has {α β : Type} [DecidableEq α]
    (m : List (α × β)) (k : α) (h : ¬ mapHas m k = true) :
    mapGet m k = none := by
  unfold mapHas at h
  cases hg : mapGet m k with
  | none => rfl
  | some v => rw [hg] at h; simp at h

/-- C1: for an instance key that already has a live registered instance
whose UI root is still attached and whose input element is unchanged, the
per-input scan leaves the state untouched (so a second scan of an
unchanged node keeps exactly the one registered instance), and
`createAssistant` returns the existing instance unchanged without touching
the registry. -/
theorem scan_no_second_instance
    (env : ScanEnv) (s : CoreState) (node : Node) (inputWidget : InputWidget)
    (key inputId : String) (inst : Widget)
    (hreg : mapGet s.instances key = some inst)
    (hui : inst.uiElement.isSome = true)
    (hpresent : uiPresent env s inst.uiElement = true)
    (hsame : inst.textElement = inputWidget.inputEl)
    (hfeat : s.featuresEnabled = true)
    (hvalid : env.isValidInput inputWidget = true)
    (hinputId : inputId ≠ "")
    (hkey : key ≠ "")
    (hel : (jsOrRef inputWidget.inputEl inputWidget.element).isSome = true
             ∨ env.vueMode = true) :
    checkAndSetupInput env s node inputWidget key = s ∧
    createAssistant env s node inputId inputWidget (some key) = (s, some inst) := by
  obtain ⟨ui, huieq⟩ := Option.isSome_iff_exists.mp hui
  rw [huieq] at hpresent
  constructor
  · unfold checkAndSetupInput
    rw [hreg]
    dsimp only
    rw [huieq, hsame]
    simp [hpresent]
  · unfold createAssistant
    rw [if_neg (by simp [hfeat, hinputId])]
    rw [if_neg (by simp [hvalid])]
    have h3 : ¬ ((jsOrRef inputWidget.inputEl inputWidget.element).isNone = true
        ∧ ¬ env.vueMode = true) := by
      rcases hel with h | h
      · rintro ⟨h1, _⟩
        rw [Option.isNone_iff_eq_none] at h1
        rw [h1] at h
        simp at h
      · rintro ⟨_, h2⟩
        exact h2 h
    rw [if_neg h3]
    have hwk : jsOrStr (some key)
        ((getAssistantKey env.appGraph (some node) inputId).getD "") = key := by
      simp [jsOrStr, hkey]
    dsimp only
    rw [hwk, hreg]

/-- Instance fixture registered under the key of node 9's `text` input,
fully mounted: UI root 3 attached, input element 1 bound. -/
def instFix : Widget :=
  { widgetKey := "main_9_text", nodeId := "9", inputId := "text",
    inputEl := some 1, textElement := some 1, uiElement := some 3,
    isMounting := false, isDestroyed := false, inputEventsBound := true,
    undoStateInitialized := true, cleanups := 2 }

/-- Input element 1 as it looks once `instFix` is mounted and bound. -/
def elemBoundMounted : ElemState :=
  { inDocument := true, inNodeContainer := false, value := ""
    promptAssistantMounted := true
    promptAssistantWidgetKey := some "main_9_text"
    promptAssistantBound := true, uniqueId := none, listeners := 2
    hasAssistantChild := false }

/-- Attached element with no assistant flags. -/
def elemAttached : ElemState :=
  { ElemState.fresh with inDocument := true }

/-- State fixture holding `instFix` in the registry with its elements
attached. -/
def sMountedFix : CoreState :=
  { featuresEnabled := true, workflowSwitching := false,
    instances := [("main_9_text", instFix)],
    inputWidgetMap := [("main_9_text", some 1)],
    elems := [(1, elemBoundMounted), (3, elemAttached)],
    nextElemId := 100, history := [], tagCache := [],
    destroyedContainers := [], pendingMounts := [] }

/-- Witness for `scan_no_second_instance` at the mounted fixture. -/
theorem scan_no_second_instance_witness :
    checkAndSetupInput envFix sMountedFix nodeFix iwSingle "main_9_text"
      = sMountedFix ∧
    createAssistant envFix sMountedFix nodeFix "text" iwSingle
        (some "main_9_text") = (sMountedFix, some instFix) := by
  exact scan_no_second_instance envFix sMountedFix nodeFix iwSingle
    "main_9_text" "text" instFix (by decide) (by decide) (by decide)
    (by decide) (by decide) (by decide) (by decide) (by decide)
    (Or.inl (by decide))

theorem getElem0_congr (s1 s2 : CoreState) (h : s1.elems = s2.elems)
    (e : Nat) : getElem0 s1 e = getElem0 s2 e := by
  unfold getElem0
  rw [h]

theorem alpRefresh_facts (s : CoreState) (w : Widget) (ci : ContainerInfo) :
    (alpRefresh s w ci).1.instances = s.instances ∧
    (alpRefresh s w ci).1.destroyedContainers = s.destroyedContainers ∧
    (alpRefresh s w ci).1.elems = s.elems ∧
    (alpRefresh s w ci).2.widgetKey = w.widgetKey ∧
    (alpRefresh s w ci).2.inputEventsBound = w.inputEventsBound := by
  unfold alpRefresh
  repeat' split
  all_goals exact ⟨rfl, rfl, rfl, rfl, rfl⟩

theorem alpRefresh_inputEl (s : CoreState) (w : Widget) (ci : ContainerInfo)
    (e : Nat) (hta : ci.textarea = some e) :
    jsOrRef (alpRefresh s w ci).2.inputEl ci.textarea = some e := by
  unfold alpRefresh
  rw [hta]
  dsimp only
  split
  · rfl
  · rename_i h
    have h2 : w.inputEl = some e := not_not.mp h
    simp [jsOrRef, h2]

theorem alpBind_mount_fields (s : CoreState) (w : Widget)
    (inputEl : Option Nat) :
    (alpBind s w inputEl).1.instances = s.instances ∧
    (alpBind s w inputEl).1.destroyedContainers = s.destroyedContainers ∧
    (alpBind s w inputEl).2.widgetKey = w.widgetKey ∧
    ∀ e2, (getElem0 (alpBind s w inputEl).1 e2).promptAssistantMounted
        = (getElem0 s e2).promptAssistantMounted ∧
      (getElem0 (alpBind s w inputEl).1 e2).promptAssistantWidgetKey
        = (getElem0 s e2).promptAssistantWidgetKey := by
  unfold alpBind
  cases inputEl with
  | none => exact ⟨rfl, rfl, rfl, fun e2 => ⟨rfl, rfl⟩⟩
  | some e =>
    dsimp only
    split
    · refine ⟨rfl, rfl, rfl, fun e2 => ?_⟩
      by_cases he : e2 = e
      · subst he
        rw [getElem0_setElem_self]
        exact ⟨rfl, rfl⟩
      · rw [getElem0_setElem_ne _ _ _ _ he]
        exact ⟨rfl, rfl⟩
    · exact ⟨rfl, rfl, rfl, fun e2 => ⟨rfl, rfl⟩⟩

theorem alpMount_marked_abort (s : CoreState) (w : Widget)
    (inputEl : Option Nat) (containerDiv : Nat) (ci : ContainerInfo) (e : Nat)
    (hie : inputEl = some e)
    (hmark : (getElem0 s e).promptAssistantMounted = true)
    (hwk : w.widgetKey ≠ "") :
    mapGet (alpMount s w inputEl containerDiv ci).1.instances w.widgetKey
      = none ∧
    w.widgetKey ∈ (alpMount s w inputEl containerDiv ci).1.destroyedContainers ∧
    (alpMount s w inputEl containerDiv ci).1.elems = s.elems := by
  unfold alpMount
  rw [hie]
  dsimp only
  rw [if_pos hmark]
  by_cases hh : mapHas s.instances w.widgetKey = true
  · rw [if_pos ⟨hwk, hh⟩]
    exact ⟨by simp [mapGet_del], by simp, rfl⟩
  · rw [if_neg (by simp [hh])]
    exact ⟨mapGet_eq_none_of_not_has _ _ hh, by simp, rfl⟩

/-- C2: first-claim-wins for the mount marker.  When litegraph positioning
finds the target input element already carrying a mount marker for a
different key, the new attempt aborts quietly — the candidate's registry
entry is removed and its container destroyed — while the existing claim
(the marker and its owner key) is left in place; likewise, the per-input
scan skips quietly (leaving the state untouched) when the creation path
finds the element already marked. -/
theorem mount_marker_first_claim_wins
    (s : CoreState) (w : Widget) (containerDiv : Nat) (ci : ContainerInfo)
    (e : Nat) (otherKey : String)
    (env : ScanEnv) (node : Node) (inputWidget : InputWidget) (key2 : String)
    (hta : ci.textarea = some e)
    (hmark : (getElem0 s e).promptAssistantMounted = true)
    (hok : (getElem0 s e).promptAssistantWidgetKey = some otherKey)
    (hdiff : otherKey ≠ w.widgetKey)
    (hwk : w.widgetKey ≠ "")
    (hiw : jsOrRef inputWidget.inputEl inputWidget.element = some e) :
    (mapGet (applyLitegraphPositioning s w containerDiv ci).1.instances
        w.widgetKey = none ∧
      w.widgetKey ∈
        (applyLitegraphPositioning s w containerDiv ci).1.destroyedContainers ∧
      (getElem0 (applyLitegraphPositioning s w containerDiv ci).1 e).promptAssistantMounted
        = true ∧
      (getElem0 (applyLitegraphPositioning s w containerDiv ci).1 e).promptAssistantWidgetKey
        = some otherKey) ∧
    proceedScanCreate env s node inputWidget key2 = s := by
  obtain ⟨hri, hrd, hre, hrk, hrb⟩ := alpRefresh_facts s w ci
  have hie := alpRefresh_inputEl s w ci e hta
  obtain ⟨hbi, hbd, hbk, hbel⟩ := alpBind_mount_fields (alpRefresh s w ci).1
    (alpRefresh s w ci).2 (jsOrRef (alpRefresh s w ci).2.inputEl ci.textarea)
  have hge : getElem0 (alpRefresh s w ci).1 e = getElem0 s e :=
    getElem0_congr _ _ hre e
  have hmark1 : (getElem0 (alpBind (alpRefresh s w ci).1 (alpRefresh s w ci).2
      (jsOrRef (alpRefresh s w ci).2.inputEl ci.textarea)).1 e).promptAssistantMounted
      = true := by
    rw [(hbel e).1, hge, hmark]
  have hkk : (alpBind (alpRefresh s w ci).1 (alpRefresh s w ci).2
      (jsOrRef (alpRefresh s w ci).2.inputEl ci.textarea)).2.widgetKey
      = w.widgetKey := by
    rw [hbk, hrk]
  obtain ⟨hm1, hm2, hm3⟩ := alpMount_marked_abort
    (alpBind (alpRefresh s w ci).1 (alpRefresh s w ci).2
      (jsOrRef (alpRefresh s w ci).2.inputEl ci.textarea)).1
    (alpBind (alpRefresh s w ci).1 (alpRefresh s w ci).2
      (jsOrRef (alpRefresh s w ci).2.inputEl ci.textarea)).2
    (jsOrRef (alpRefresh s w ci).2.inputEl ci.textarea) containerDiv ci e
    hie (by rw [hmark1]) (by rw [hkk]; exact hwk)
  constructor
  · have happ : applyLitegraphPositioning s w containerDiv ci
        = alpMount
            (alpBind (alpRefresh s w ci).1 (alpRefresh s w ci).2
              (jsOrRef (alpRefresh s w ci).2.inputEl ci.textarea)).1
            (alpBind (alpRefresh s w ci).1 (alpRefresh s w ci).2
              (jsOrRef (alpRefresh s w ci).2.inputEl ci.textarea)).2
            (jsOrRef (alpRefresh s w ci).2.inputEl ci.textarea) containerDiv ci := rfl
    rw [happ]
    rw [hkk] at hm1 hm2
    refine ⟨hm1, hm2, ?_, ?_⟩
    · rw [getElem0_congr _ _ hm3 e, (hbel e).1, hge, hmark]
    · rw [getElem0_congr _ _ hm3 e, (hbel e).2, hge, hok]
  · unfold proceedScanCreate
    by_cases hfe : s.featuresEnabled = true
    · rw [if_neg (by simp [hfe]), hiw]
      dsimp only
      rw [if_pos hmark]
    · rw [if_pos (by simp [hfe])]


/-- Second candidate widget racing for the already-claimed input element 1. -/
def wSecondFix : Widget :=
  { widgetKey := "main_9_text_b", nodeId := "9", inputId := "text",
    inputEl := some 1, textElement := some 1, uiElement := some 4,
    isMounting := true, isDestroyed := false, inputEventsBound := false,
    undoStateInitialized := false, cleanups := 0 }

/-- Mounted fixture extended with the racing second candidate registered. -/
def sTwoFix : CoreState :=
  { sMountedFix with
      instances := [("main_9_text", instFix), ("main_9_text_b", wSecondFix)] }

/-- Witness for `mount_marker_first_claim_wins` at the two-candidate
fixture. -/
theorem mount_marker_first_claim_wins_witness :
    (mapGet (applyLitegraphPositioning sTwoFix wSecondFix 5 ⟨5, some 1⟩).1.instances
        "main_9_text_b" = none ∧
      "main_9_text_b" ∈
        (applyLitegraphPositioning sTwoFix wSecondFix 5 ⟨5, some 1⟩).1.destroyedContainers ∧
      (getElem0 (applyLitegraphPositioning sTwoFix wSecondFix 5 ⟨5, some 1⟩).1 1).promptAssistantMounted
        = true ∧
      (getElem0 (applyLitegraphPositioning sTwoFix wSecondFix 5 ⟨5, some 1⟩).1 1).promptAssistantWidgetKey
        = some "main_9_text") ∧
    proceedScanCreate envFix sTwoFix nodeFix iwSingle "k2" = sTwoFix := by
  exact mount_marker_first_claim_wins sTwoFix wSecondFix 5 ⟨5, some 1⟩ 1
    "main_9_text" envFix nodeFix iwSingle "k2" (by decide) (by decide)
    (by decide) (by decide) (by decide) (by decide)

/-- Input element 1 already bound by a first instance: element-level bound
flag set and three listeners attached. -/
def elemBoundFix : ElemState :=
  { ElemState.fresh with
      inDocument := true
      promptAssistantBound := true
      listeners := 3 }

/-- State whose element 1 is `elemBoundFix`. -/
def sBoundFix : CoreState :=
  { featuresEnabled := true, workflowSwitching := false, instances := [],
    inputWidgetMap := [], elems := [(1, elemBoundFix)], nextElemId := 50,
    history := [], tagCache := [], destroyedContainers := [],
    pendingMounts := [] }

/-- Fresh widget that has never bound events (widget-level flag clear),
targeting the already-bound element 1. -/
def wRebinder : Widget :=
  { widgetKey := "main_9_text_b", nodeId := "9", inputId := "text",
    inputEl := some 1, textElement := some 1, uiElement := some 4,
    isMounting := true, isDestroyed := false, inputEventsBound := false,
    undoStateInitialized := true, cleanups := 0 }

/-- Counterexample to C5 as stated: the element-level `_promptAssistantBound`
flag does not prevent rebinding.  Element 1 already carries the flag and
three listeners from a first binding, yet a widget whose own
`_inputEventsBound` flag is clear attaches three more listeners through
`_initializeInputElBindings` (and two more through the positioning
fallback), because both paths guard on the widget-level flag only. -/
theorem bind_element_flag_not_a_guard_counterexample :
    (getElem0 sBoundFix 1).promptAssistantBound = true ∧
    (getElem0 sBoundFix 1).listeners = 3 ∧
    (getElem0 (initInputElBindings sBoundFix wRebinder iwSingle nodeFix "text").1 1).listeners
      = 6 ∧
    (getElem0 (alpBind sBoundFix wRebinder (some 1)).1 1).listeners = 5 := by
  refine ⟨by decide, by decide, by decide, by decide⟩

/-- C5 (amended): event binding is exactly-once per widget, not per
element: the widget-level `_inputEventsBound` flag makes both bind paths —
`_initializeInputElBindings` and the positioning fallback — no-ops when it
is already set, attaching no listeners and registering no cleanups; the
element-level flag is recorded but not consulted, so a distinct widget may
still rebind the same element. -/
theorem bind_widget_guard_idempotent (s : CoreState) (w : Widget)
    (inputWidget : InputWidget) (node : Node) (inputId : String)
    (inputEl : Option Nat) (hbound : w.inputEventsBound = true) :
    (∀ e2, (getElem0 (initInputElBindings s w inputWidget node inputId).1 e2).listeners
        = (getElem0 s e2).listeners) ∧
    ((initInputElBindings s w inputWidget node inputId).2).cleanups
      = w.cleanups ∧
    alpBind s w inputEl = (s, w) := by
  refine ⟨?_, ?_, ?_⟩
  · intro e2
    unfold initInputElBindings
    dsimp only
    repeat' split
    all_goals first | rfl | simp_all
  · unfold initInputElBindings
    dsimp only
    repeat' split
    all_goals first | rfl | simp_all
  · unfold alpBind
    cases inputEl with
    | none => rfl
    | some e =>
      dsimp only
      rw [if_neg (by simp [hbound])]

/-- Witness for `bind_widget_guard_idempotent` at the mounted fixture,
whose instance has already bound its events. -/
theorem bind_widget_guard_idempotent_witness :
    (getElem0 (initInputElBindings sMountedFix instFix iwSingle nodeFix "text").1 1).listeners
      = (getElem0 sMountedFix 1).listeners ∧
    ((initInputElBindings sMountedFix instFix iwSingle nodeFix "text").2).cleanups
      = instFix.cleanups ∧
    alpBind sMountedFix instFix (some 1) = (sMountedFix, instFix) := by
  obtain ⟨h1, h2, h3⟩ := bind_widget_guard_idempotent sMountedFix instFix
    iwSingle nodeFix "text" (some 1) (by decide)
  exact ⟨h1 1, h2, h3⟩

/-- Instance registered under a legacy-format key while a workflow switch
is in progress. -/
def wsInstFix : Widget :=
  { widgetKey := "7_text", nodeId := "7", inputId := "text",
    inputEl := some 1, textElement := some 1, uiElement := some 2,
    isMounting := false, isDestroyed := false, inputEventsBound := true,
    undoStateInitialized := true, cleanups := 2 }

/-- State in the middle of a workflow switch, with one matching instance,
one persisted history entry and one tag-cache entry. -/
def sWSFix : CoreState :=
  { featuresEnabled := true, workflowSwitching := true,
    instances := [("7_text", wsInstFix)],
    inputWidgetMap := [("7_text", some 1)],
    elems := [(1, elemBoundMounted)], nextElemId := 10,
    history := [{ workflowId := "wf", nodeId := "7", inputId := "text",
                  content := "hello", operationType := "input" }],
    tagCache := [{ nodeId := "7", inputId := "text", tag := "sunset" }],
    destroyedContainers := [], pendingMounts := [] }

/-- Witness for `cleanup_workflow_switching_frame` at the mid-switch
fixture. -/
theorem cleanup_workflow_switching_frame_witness :
    ((cleanup sWSFix (some "7") false).1).history = sWSFix.history ∧
    ((cleanup sWSFix (some "7") false).1).tagCache = sWSFix.tagCache ∧
    ((cleanup sWSFix (some "7") false).1).instances
      = sWSFix.instances.filter (fun kv => !(cleanupWSMatch (some "7") kv.1)) := by
  exact cleanup_workflow_switching_frame sWSFix (some "7") false (by decide)
